import Mathlib

/-!
# Verification of `document_portal` credential resolution and model loading

Shallow embedding of `src/utils/model_loader.py` (classes `ApiKeyManager` and
`ModelLoader`).  Python dictionaries are modelled as ordered association lists,
the process environment as an association list from variable names to string
values (`os.getenv` returning `none` when unset), and `json.loads` — an
external standard-library collaborator — abstractly by its outcome on the
`API_KEYS` blob.  JSON object values are modelled as strings, the shape the
credential blob documented in the source comments has
(`API_KEYS='{"GROQ_API_KEY":"groq-abc",...\x7d'`).  Exceptions are modelled by
`Except`; structured log calls are modelled as a trace of `LogEvent`s.

`DocumentPortalException` lives in `exception/custom_exception.py`, which is
not part of the sources; it is modelled from the spec: an exception-wrapping
facility carrying the message passed to it and retaining the active original
error as its cause.
-/

/-- The process environment: variable name to value.  `os.getenv` is lookup of
the first matching binding; an unset variable is `none`.  A variable may be
set to the empty string, which Python treats as set but falsy. -/
abbrev Env := List (String × String)

/-- A Python `dict` with string keys, modelled as an ordered association
list; lookups return the first matching binding. -/
abbrev Dict := List (String × String)

/-- `d.get(k)` / `os.getenv(k)`: first value bound to `k`, if any. -/
def dictGet {α : Type} : List (String × α) → String → Option α
  | [], _ => none
  | (k0, v0) :: rest, k => if k0 == k then some v0 else dictGet rest k

/-- `d[k] = v`: replace the first binding of `k` in place, else append. -/
def dictSet : Dict → String → String → Dict
  | [], k, v => [(k, v)]
  | (k0, v0) :: rest, k, v =>
      if k0 == k then (k, v) :: rest else (k0, v0) :: dictSet rest k v

/-- Python truthiness of `d.get(k)` / `os.getenv(k)`: `None` and the empty
string are falsy (`if not self.api_keys.get(key)` in the source). -/
def truthy : Option String → Bool
  | none => false
  | some s => !s.isEmpty

/-- Outcome of `json.loads` on the `API_KEYS` blob, modelling the external
JSON parser abstractly: it yields a JSON object (a string-to-string mapping,
the documented shape of the credential blob), some non-object JSON value, or
raises a parse error with a message. -/
inductive JsonParse where
  | obj (entries : Dict)
  | nonObj
  | err (msg : String)

/-- A value of the YAML configuration document: a string, a number (the
source only moves numeric config values around, never computes with them, so
they are modelled as exact rationals), or a nested mapping. -/
inductive ConfigVal where
  | s (v : String)
  | n (v : Rat)
  | d (entries : List (String × ConfigVal))

/-- The configuration document: the top-level YAML mapping. -/
abbrev ConfigDict := List (String × ConfigVal)

/-- Python exceptions raised by the embedded code other than
`DocumentPortalException`.  The two `ValueError`s of `load_llm` are f-strings
naming the offending value; they are modelled structurally, carrying that
value. -/
inductive PyErr where
  | keyError (msg : String)
  | typeError (msg : String)
  | attributeError (msg : String)
  | valueErrorProviderNotFound (provider_key : String)
  | valueErrorUnsupportedProvider (provider : Option ConfigVal)
  | externalError (msg : String)

/-- Modelled from the spec: `DocumentPortalException`
(`exception/custom_exception.py`, not under the sources) is the
exception-wrapping facility; it carries the message passed at the raise site
and retains the original (active) error as its cause. -/
structure DocumentPortalException where
  message : String
  cause : Option PyErr

/-- Is the exception one of the two `ValueError`s (validation errors) of
`load_llm`? -/
def PyErr.isValueError : PyErr → Bool
  | .valueErrorProviderNotFound _ => true
  | .valueErrorUnsupportedProvider _ => true
  | _ => false

/-- Python `v[:6] + "..."`, the masking of one credential value in the
success log: the first six characters followed by an ellipsis. -/
def maskValue (v : String) : String :=
  String.mk (v.data.take 6 ++ "...".data)

/-- The dict comprehension `{k: v[:6] + "..." for k, v in self.api_keys.items()\x7d`. -/
def maskedSummary (d : Dict) : List (String × String) :=
  d.map fun kv => (kv.1, maskValue kv.2)

/-- One structured log call (`log.info` / `log.warning` / `log.error`) made
by `ApiKeyManager.__init__`, with its structured fields. -/
inductive LogEvent where
  | infoLoadedBlob
  | warnParseFail (error : String)
  | infoLoadedIndividual (key : String)
  | errorMissing (missing_keys : List String)
  | infoApiKeysLoaded (keys : List (String × String))
  | infoLoadingEmbedding (model : ConfigVal)
  | errorLoadingEmbedding (error : PyErr)
  | errorProviderNotFound (provider : String)
  | infoLoadingLLM (provider : Option ConfigVal) (model : Option ConfigVal)
  | errorUnsupportedProvider (provider : Option ConfigVal)

/-- The three required key names (`ApiKeyManager.REQUIRED_KEYS`). -/
def REQUIRED_KEYS : List String :=
  ["GROQ_API_KEY", "GOOGLE_API_KEY", "OPENAI_API_KEY"]

/-- The credential resolver after successful construction: its `api_keys`
dict. -/
structure ApiKeyManager where
  api_keys : Dict
deriving DecidableEq, Repr

/-- First phase of `ApiKeyManager.__init__`: read `os.getenv("API_KEYS")`;
when set and non-empty, run `json.loads` on it — adopting the parsed dict and
logging on success, logging a warning and keeping the empty dict when the
result is not a JSON object or parsing fails.  Returns the initial
`self.api_keys` and the log trace so far. -/
def initialDict (env : Env) (parse : String → JsonParse) : Dict × List LogEvent :=
  match dictGet env "API_KEYS" with
  | none => ([], [])
  | some raw =>
      if raw.isEmpty then ([], [])
      else
        match parse raw with
        | .obj entries => (entries, [.infoLoadedBlob])
        | .nonObj => ([], [.warnParseFail "API_KEYS is not a valid JSON object"])
        | .err m => ([], [.warnParseFail m])

/-- Body of the fallback loop of `ApiKeyManager.__init__` for one required
key: if the key is not already truthy in the dict, read the same-named
environment variable and, when set and non-empty, store and log it. -/
def fallbackStep (env : Env) (acc : Dict × List LogEvent) (key : String) :
    Dict × List LogEvent :=
  if truthy (dictGet acc.1 key) then acc
  else
    match dictGet env key with
    | some v =>
        if v.isEmpty then acc
        else (dictSet acc.1 key v, acc.2 ++ [.infoLoadedIndividual key])
    | none => acc

/-- The dict and log trace after both resolution passes of
`ApiKeyManager.__init__` (blob, then per-key fallback loop). -/
def resolvedKeys (env : Env) (parse : String → JsonParse) : Dict × List LogEvent :=
  REQUIRED_KEYS.foldl (fallbackStep env) (initialDict env parse)

/-- `missing = [k for k in self.REQUIRED_KEYS if not self.api_keys.get(k)]`:
the required keys still unset or empty after both passes. -/
def missingKeys (env : Env) (parse : String → JsonParse) : List String :=
  REQUIRED_KEYS.filter fun k => !truthy (dictGet (resolvedKeys env parse).1 k)

/-- `ApiKeyManager.__init__`: on success returns the constructed manager and
the log trace ending in the masked success summary; when required keys are
missing, logs the missing list and raises
`DocumentPortalException("Missing API keys", sys)` (no exception is active at
that raise, so the wrapper carries no cause). -/
def apiKeyManagerInit (env : Env) (parse : String → JsonParse) :
    Except DocumentPortalException ApiKeyManager × List LogEvent :=
  let d1 := (resolvedKeys env parse).1
  let logs1 := (resolvedKeys env parse).2
  let missing := missingKeys env parse
  if missing.isEmpty then
    (.ok ⟨d1⟩, logs1 ++ [.infoApiKeysLoaded (maskedSummary d1)])
  else
    (.error ⟨"Missing API keys", none⟩, logs1 ++ [.errorMissing missing])

/-- `ApiKeyManager.get`: return the stored value for `key`, raising
`KeyError(f"API key for {key\x7d is missing")` when it is absent or falsy. -/
def ApiKeyManager.get (m : ApiKeyManager) (key : String) : Except PyErr String :=
  match dictGet m.api_keys key with
  | some v =>
      if v.isEmpty then .error (.keyError ("API key for " ++ key ++ " is missing"))
      else .ok v
  | none => .error (.keyError ("API key for " ++ key ++ " is missing"))

example :
    apiKeyManagerInit
      [("GROQ_API_KEY", "gr1"), ("GOOGLE_API_KEY", "go1"), ("OPENAI_API_KEY", "op1")]
      (fun _ => .err "no blob") =
    (.ok ⟨[("GROQ_API_KEY", "gr1"), ("GOOGLE_API_KEY", "go1"), ("OPENAI_API_KEY", "op1")]⟩,
     [.infoLoadedIndividual "GROQ_API_KEY", .infoLoadedIndividual "GOOGLE_API_KEY",
      .infoLoadedIndividual "OPENAI_API_KEY",
      .infoApiKeysLoaded [("GROQ_API_KEY", "gr1..."), ("GOOGLE_API_KEY", "go1..."),
        ("OPENAI_API_KEY", "op1...")]]) := rfl

example :
    apiKeyManagerInit [("GOOGLE_API_KEY", "go1"), ("OPENAI_API_KEY", "op1")]
      (fun _ => .err "no blob") =
    (.error ⟨"Missing API keys", none⟩,
     [.infoLoadedIndividual "GOOGLE_API_KEY", .infoLoadedIndividual "OPENAI_API_KEY",
      .errorMissing ["GROQ_API_KEY"]]) := rfl

/-- `cfg[k]` on the top-level configuration mapping: `KeyError` when the key
is absent. -/
def topSubscript (cfg : ConfigDict) (k : String) : Except PyErr ConfigVal :=
  match dictGet cfg k with
  | some v => .ok v
  | none => .error (.keyError k)

/-- `v[k]` on a configuration value: subscripting a non-mapping value fails
(Python raises a `TypeError` there). -/
def configSubscript (v : ConfigVal) (k : String) : Except PyErr ConfigVal :=
  match v with
  | .d entries => topSubscript entries k
  | _ => .error (.typeError "value is not subscriptable")

/-- `self.config["embedding_model"]["model_name"]`, the configured embedding
model name read by `load_embeddings`. -/
def embeddingModelName (config : ConfigDict) : Except PyErr ConfigVal :=
  match topSubscript config "embedding_model" with
  | .error e => .error e
  | .ok em => configSubscript em "model_name"

/-- `ModelLoader.load_embeddings`: read the embedding model name from
configuration, resolve `GOOGLE_API_KEY`, and call the
`GoogleGenerativeAIEmbeddings` factory (an opaque external collaborator,
passed as `factory`) with those two arguments.  Any exception along the way
is logged (`log.error("Error loading embedding model", error=str(e))`) and
re-raised as `DocumentPortalException("Failed to load embedding model", sys)`
with the original error as cause. -/
def load_embeddings {α : Type} (config : ConfigDict) (mgr : ApiKeyManager)
    (factory : ConfigVal → String → Except PyErr α) :
    Except DocumentPortalException α × List LogEvent :=
  match embeddingModelName config with
  | .error e =>
      (.error ⟨"Failed to load embedding model", some e⟩, [.errorLoadingEmbedding e])
  | .ok m =>
      match mgr.get "GOOGLE_API_KEY" with
      | .error e =>
          (.error ⟨"Failed to load embedding model", some e⟩,
           [.infoLoadingEmbedding m, .errorLoadingEmbedding e])
      | .ok key =>
          match factory m key with
          | .error e =>
              (.error ⟨"Failed to load embedding model", some e⟩,
               [.infoLoadingEmbedding m, .errorLoadingEmbedding e])
          | .ok c => (.ok c, [.infoLoadingEmbedding m])

/-- Python `provider == name` where `provider` is the raw config value
`llm_config.get("provider")`: true exactly when it is a string equal to
`name` (`None` and non-string values compare unequal to any string). -/
def isProviderTag (provider : Option ConfigVal) (name : String) : Bool :=
  match provider with
  | some (.s t) => t == name
  | _ => false

/-- Python `needle in hay` where both operands are strings: the substring
(contiguous infix) test. -/
def strContains (hay needle : String) : Bool :=
  decide (needle.data <:+: hay.data)

/-- The external chat-client factory invocation `load_llm` ends in, with the
exact keyword arguments the source passes in each branch (`ChatGroq` receives
no token budget). -/
inductive ChatCall where
  | chatGoogleGenerativeAI (model : Option ConfigVal) (google_api_key : String)
      (temperature : ConfigVal) (max_output_tokens : ConfigVal)
  | chatGroq (model : Option ConfigVal) (api_key : String) (temperature : ConfigVal)
  | chatOpenAI (model : Option ConfigVal) (api_key : String)
      (temperature : ConfigVal) (max_tokens : ConfigVal)

/-- `ModelLoader.load_llm`: select the provider entry
`self.config["llm"][os.getenv("LLM_PROVIDER", "openai")]`, extract its tag,
model name, temperature (default `0.2`) and token budget (default `2048`),
and dispatch to one of the three chat factories, returning the described
invocation.  A missing provider key and an unrecognized provider tag raise
the two `ValueError`s of the source.  The membership test
`provider_key not in llm_block` follows Python semantics per block type: key
lookup on a mapping; the substring test on a string-valued block — reaching
the provider-not-found `ValueError` when the key is not a substring, and a
`TypeError` at the subsequent subscript `llm_block[provider_key]` when it
is; on a numeric block the membership test itself raises `TypeError`.  A
non-mapping provider entry raises `AttributeError` when `.get` is attempted
on it. -/
def load_llm (config : ConfigDict) (env : Env) (mgr : ApiKeyManager) :
    Except PyErr ChatCall × List LogEvent :=
  match topSubscript config "llm" with
  | .error e => (.error e, [])
  | .ok llmv =>
    match llmv with
    | .d llm_block =>
      let provider_key := (dictGet env "LLM_PROVIDER").getD "openai"
      match dictGet llm_block provider_key with
      | none =>
          (.error (.valueErrorProviderNotFound provider_key),
           [.errorProviderNotFound provider_key])
      | some entry =>
        match entry with
        | .d llm_config =>
          let provider := dictGet llm_config "provider"
          let model_name := dictGet llm_config "model_name"
          let temperature := (dictGet llm_config "temperature").getD (.n 0.2)
          let max_tokens := (dictGet llm_config "max_output_tokens").getD (.n 2048)
          let logs := [LogEvent.infoLoadingLLM provider model_name]
          if isProviderTag provider "google" then
            match mgr.get "GOOGLE_API_KEY" with
            | .error e => (.error e, logs)
            | .ok key =>
                (.ok (.chatGoogleGenerativeAI model_name key temperature max_tokens),
                 logs)
          else if isProviderTag provider "groq" then
            match mgr.get "GROQ_API_KEY" with
            | .error e => (.error e, logs)
            | .ok key => (.ok (.chatGroq model_name key temperature), logs)
          else if isProviderTag provider "openai" then
            match mgr.get "OPENAI_API_KEY" with
            | .error e => (.error e, logs)
            | .ok key =>
                (.ok (.chatOpenAI model_name key temperature max_tokens), logs)
          else
            (.error (.valueErrorUnsupportedProvider provider),
             logs ++ [.errorUnsupportedProvider provider])
        | _ => (.error (.attributeError "llm config entry has no attribute get"), [])
    | .s str =>
        let provider_key := (dictGet env "LLM_PROVIDER").getD "openai"
        if strContains str provider_key then
          (.error (.typeError "string indices must be integers"), [])
        else
          (.error (.valueErrorProviderNotFound provider_key),
           [.errorProviderNotFound provider_key])
    | .n _ => (.error (.typeError "argument of type number is not iterable"), [])

theorem dictGet_dictSet_self (d : Dict) (k v : String) :
    dictGet (dictSet d k v) k = some v := by
  induction d with
  | nil => simp [dictGet, dictSet]
  | cons hd tl ih =>
      obtain ⟨k0, v0⟩ := hd
      by_cases h : k0 = k
      · simp [dictGet, dictSet, h]
      · simp [dictGet, dictSet, h, ih]

theorem dictGet_dictSet_ne (d : Dict) (k v k' : String) (h : k' ≠ k) :
    dictGet (dictSet d k v) k' = dictGet d k' := by
  have h' : k ≠ k' := Ne.symm h
  induction d with
  | nil => simp [dictGet, dictSet, h']
  | cons hd tl ih =>
      obtain ⟨k0, v0⟩ := hd
      by_cases h0 : k0 = k
      · subst h0
        simp [dictGet, dictSet, h']
      · have h0' : (k0 == k) = false := by simpa using h0
        simp only [dictSet, h0', Bool.false_eq_true, if_false, dictGet]
        split <;> simp [ih]

theorem dictGet_mem {α : Type} (d : List (String × α)) (k : String) (v : α)
    (h : dictGet d k = some v) : (k, v) ∈ d := by
  induction d with
  | nil => simp [dictGet] at h
  | cons hd tl ih =>
      obtain ⟨k0, v0⟩ := hd
      by_cases h0 : k0 = k
      · subst h0
        simp [dictGet] at h
        simp [h]
      · simp [dictGet, h0] at h
        exact List.mem_cons_of_mem _ (ih h)

theorem fallbackStep_get_ne (env : Env) (acc : Dict × List LogEvent)
    (key k : String) (h : k ≠ key) :
    dictGet (fallbackStep env acc key).1 k = dictGet acc.1 k := by
  unfold fallbackStep
  by_cases ht : truthy (dictGet acc.1 key)
  · simp [ht]
  · simp [ht]
    cases henv : dictGet env key with
    | none => simp
    | some v =>
        by_cases hv : v.isEmpty
        · simp [hv]
        · simp [hv, dictGet_dictSet_ne _ _ _ _ h]

theorem fallbackStep_get_self (env : Env) (acc : Dict × List LogEvent)
    (key : String) :
    dictGet (fallbackStep env acc key).1 key =
      if truthy (dictGet acc.1 key) then dictGet acc.1 key
      else if truthy (dictGet env key) then dictGet env key
      else dictGet acc.1 key := by
  unfold fallbackStep
  by_cases ht : truthy (dictGet acc.1 key)
  · simp [ht]
  · simp [ht]
    cases henv : dictGet env key with
    | none => simp [truthy]
    | some v =>
        by_cases hv : v.isEmpty
        · simp [hv, truthy]
        · simp [hv, truthy, dictGet_dictSet_self]

theorem resolvedKeys_get (env : Env) (parse : String → JsonParse) (k : String)
    (hk : k ∈ REQUIRED_KEYS) :
    dictGet (resolvedKeys env parse).1 k =
      if truthy (dictGet (initialDict env parse).1 k) then
        dictGet (initialDict env parse).1 k
      else if truthy (dictGet env k) then dictGet env k
      else dictGet (initialDict env parse).1 k := by
  simp [REQUIRED_KEYS] at hk
  unfold resolvedKeys REQUIRED_KEYS
  simp only [List.foldl]
  rcases hk with h | h | h <;> subst h
  · rw [fallbackStep_get_ne _ _ _ _ (by decide),
      fallbackStep_get_ne _ _ _ _ (by decide), fallbackStep_get_self]
  · rw [fallbackStep_get_ne _ _ _ _ (by decide), fallbackStep_get_self,
      fallbackStep_get_ne _ _ _ _ (by decide)]
  · rw [fallbackStep_get_self, fallbackStep_get_ne _ _ _ _ (by decide),
      fallbackStep_get_ne _ _ _ _ (by decide)]

theorem resolvedKeys_get_not_required (env : Env) (parse : String → JsonParse)
    (k : String) (hk : k ∉ REQUIRED_KEYS) :
    dictGet (resolvedKeys env parse).1 k = dictGet (initialDict env parse).1 k := by
  simp [REQUIRED_KEYS] at hk
  obtain ⟨h1, h2, h3⟩ := hk
  unfold resolvedKeys REQUIRED_KEYS
  simp only [List.foldl]
  rw [fallbackStep_get_ne _ _ _ _ h3, fallbackStep_get_ne _ _ _ _ h2,
    fallbackStep_get_ne _ _ _ _ h1]

theorem apiKeyManagerInit_ok (env : Env) (parse : String → JsonParse)
    (m : ApiKeyManager) (l : List LogEvent)
    (h : apiKeyManagerInit env parse = (.ok m, l)) :
    m.api_keys = (resolvedKeys env parse).1 ∧ missingKeys env parse = [] ∧
      l = (resolvedKeys env parse).2 ++
        [.infoApiKeysLoaded (maskedSummary (resolvedKeys env parse).1)] := by
  unfold apiKeyManagerInit at h
  by_cases hm : (missingKeys env parse).isEmpty
  · simp [hm] at h
    obtain ⟨h1, h2⟩ := h
    refine ⟨?_, ?_, h2.symm⟩
    · rw [← h1]
    · exact List.isEmpty_iff.mp hm
  · simp [hm] at h

theorem missingKeys_nil_truthy (env : Env) (parse : String → JsonParse)
    (h : missingKeys env parse = []) (k : String) (hk : k ∈ REQUIRED_KEYS) :
    truthy (dictGet (resolvedKeys env parse).1 k) = true := by
  unfold missingKeys at h
  rw [List.filter_eq_nil_iff] at h
  have := h k hk
  simpa using this

/-- C8: whenever construction of the credential resolver succeeds, every one
of the three required key-names maps to a non-empty value in the credential
set, and `get(k)` returns that non-empty value — never raising its lookup
error — for every required key-name `k`. -/
theorem c8_success_invariant (env : Env) (parse : String → JsonParse)
    (m : ApiKeyManager) (l : List LogEvent)
    (h : apiKeyManagerInit env parse = (.ok m, l)) :
    ∀ k ∈ REQUIRED_KEYS, ∃ v : String,
      dictGet m.api_keys k = some v ∧ v.isEmpty = false ∧ m.get k = .ok v := by
  obtain ⟨hm, hmiss, -⟩ := apiKeyManagerInit_ok env parse m l h
  intro k hk
  have ht := missingKeys_nil_truthy env parse hmiss k hk
  rw [← hm] at ht
  cases hv : dictGet m.api_keys k with
  | none => rw [hv] at ht; simp [truthy] at ht
  | some v =>
      rw [hv] at ht
      simp [truthy] at ht
      exact ⟨v, rfl, by simpa using ht, by simp [ApiKeyManager.get, hv, ht]⟩

/-- Witness for C8 at a concrete environment with all three keys set. -/
theorem c8_success_invariant_witness :
    ∃ v : String,
      dictGet (ApiKeyManager.mk
        [("GROQ_API_KEY", "gr1"), ("GOOGLE_API_KEY", "go1"), ("OPENAI_API_KEY", "op1")]).api_keys
        "GROQ_API_KEY" = some v ∧ v.isEmpty = false ∧
      (ApiKeyManager.mk
        [("GROQ_API_KEY", "gr1"), ("GOOGLE_API_KEY", "go1"), ("OPENAI_API_KEY", "op1")]).get
        "GROQ_API_KEY" = .ok v :=
  c8_success_invariant
    [("GROQ_API_KEY", "gr1"), ("GOOGLE_API_KEY", "go1"), ("OPENAI_API_KEY", "op1")]
    (fun _ => .err "no blob")
    (ApiKeyManager.mk
      [("GROQ_API_KEY", "gr1"), ("GOOGLE_API_KEY", "go1"), ("OPENAI_API_KEY", "op1")])
    [.infoLoadedIndividual "GROQ_API_KEY", .infoLoadedIndividual "GOOGLE_API_KEY",
     .infoLoadedIndividual "OPENAI_API_KEY",
     .infoApiKeysLoaded [("GROQ_API_KEY", "gr1..."), ("GOOGLE_API_KEY", "go1..."),
       ("OPENAI_API_KEY", "op1...")]]
    rfl "GROQ_API_KEY" (by simp [REQUIRED_KEYS])

/-- C1 counterexample: with only `GROQ_API_KEY` missing, construction fails,
but the raised configuration error carries the fixed message
`"Missing API keys"`, which does not contain the missing key-name at all
(the names appear only in the error log record). -/
theorem c1_counterexample :
    (apiKeyManagerInit [("GOOGLE_API_KEY", "go1"), ("OPENAI_API_KEY", "op1")]
        (fun _ => .err "unused")).1 =
      .error ⟨"Missing API keys", none⟩ ∧
    missingKeys [("GOOGLE_API_KEY", "go1"), ("OPENAI_API_KEY", "op1")]
        (fun _ => .err "unused") = ["GROQ_API_KEY"] ∧
    ¬ ("GROQ_API_KEY".data <:+: "Missing API keys".data) :=
  ⟨rfl, rfl, by decide⟩

/-- C1 (amended): if, after both passes, at least one required key-name is
still unset or empty, construction fails with a configuration error carrying
the fixed message `"Missing API keys"`, after emitting an error log record
that lists exactly the missing key-names. -/
theorem c1_missing_keys_failure (env : Env) (parse : String → JsonParse)
    (h : missingKeys env parse ≠ []) :
    apiKeyManagerInit env parse =
      (.error ⟨"Missing API keys", none⟩,
       (resolvedKeys env parse).2 ++ [.errorMissing (missingKeys env parse)]) ∧
    ∀ k, k ∈ missingKeys env parse ↔
      (k ∈ REQUIRED_KEYS ∧ truthy (dictGet (resolvedKeys env parse).1 k) = false) := by
  constructor
  · unfold apiKeyManagerInit
    rw [if_neg (by simpa [List.isEmpty_iff] using h)]
  · intro k
    unfold missingKeys
    simp [List.mem_filter]

/-- Witness for C1 (amended) at a concrete environment missing
`GROQ_API_KEY`. -/
theorem c1_missing_keys_failure_witness :
    apiKeyManagerInit [("GOOGLE_API_KEY", "go2"), ("OPENAI_API_KEY", "op2")]
        (fun _ => JsonParse.err "u") =
      (.error ⟨"Missing API keys", none⟩,
       [.infoLoadedIndividual "GOOGLE_API_KEY", .infoLoadedIndividual "OPENAI_API_KEY",
        .errorMissing ["GROQ_API_KEY"]]) :=
  (c1_missing_keys_failure [("GOOGLE_API_KEY", "go2"), ("OPENAI_API_KEY", "op2")]
    (fun _ => JsonParse.err "u") (by decide)).1

theorem maskValue_ne (v : String)
    (h : ¬ (v.data.length = 9 ∧ v.data.drop 6 = "...".data)) :
    String.mk (v.data.take 6 ++ "...".data) ≠ v := by
  intro heq
  apply h
  have hd : v.data.take 6 ++ "...".data = v.data := congrArg String.data heq
  have hlen : v.data.length = 9 := by
    have hlen3 := congrArg List.length hd
    rw [List.length_append, List.length_take] at hlen3
    have h3 : ("...".data).length = 3 := rfl
    rw [h3] at hlen3
    omega
  refine ⟨hlen, ?_⟩
  have hsplit : v.data.take 6 ++ v.data.drop 6 = v.data := List.take_append_drop 6 v.data
  have := hd.trans hsplit.symm
  exact (List.append_cancel_left this).symm

/-- C2 counterexample: the nine-character secret `"abcdef..."` (six
characters followed by an ellipsis) is stored at successful construction,
and its masked log value equals the full secret, so the success log does
contain a full secret value. -/
theorem c2_counterexample :
    (apiKeyManagerInit
        [("GROQ_API_KEY", "abcdef..."), ("GOOGLE_API_KEY", "go1"), ("OPENAI_API_KEY", "op1")]
        (fun _ => .err "u")).1 =
      .ok ⟨[("GROQ_API_KEY", "abcdef..."), ("GOOGLE_API_KEY", "go1"),
        ("OPENAI_API_KEY", "op1")]⟩ ∧
    LogEvent.infoApiKeysLoaded
        [("GROQ_API_KEY", "abcdef..."), ("GOOGLE_API_KEY", "go1..."),
         ("OPENAI_API_KEY", "op1...")] ∈
      (apiKeyManagerInit
        [("GROQ_API_KEY", "abcdef..."), ("GOOGLE_API_KEY", "go1"), ("OPENAI_API_KEY", "op1")]
        (fun _ => .err "u")).2 ∧
    maskValue "abcdef..." = "abcdef..." := by
  refine ⟨rfl, ?_, rfl⟩
  have h2 : (apiKeyManagerInit
      [("GROQ_API_KEY", "abcdef..."), ("GOOGLE_API_KEY", "go1"), ("OPENAI_API_KEY", "op1")]
      (fun _ => .err "u")).2 =
      [LogEvent.infoLoadedIndividual "GROQ_API_KEY",
       LogEvent.infoLoadedIndividual "GOOGLE_API_KEY",
       LogEvent.infoLoadedIndividual "OPENAI_API_KEY",
       LogEvent.infoApiKeysLoaded [("GROQ_API_KEY", "abcdef..."),
         ("GOOGLE_API_KEY", "go1..."), ("OPENAI_API_KEY", "op1...")]] := rfl
  rw [h2]
  simp

/-- C2 (amended): at successful construction the success log carries, for
every stored credential value, its first six characters followed by an
ellipsis; the logged string differs from the full secret value except in the
boundary case of a value exactly nine characters long ending in `"..."`,
where the mask reproduces the value itself. -/
theorem c2_masked_success_log (env : Env) (parse : String → JsonParse)
    (m : ApiKeyManager) (l : List LogEvent)
    (h : apiKeyManagerInit env parse = (.ok m, l)) :
    ∃ masked, LogEvent.infoApiKeysLoaded masked ∈ l ∧
      (∀ kv ∈ m.api_keys,
        (kv.1, String.mk (kv.2.data.take 6 ++ "...".data)) ∈ masked) ∧
      (∀ kv ∈ m.api_keys, ¬ (kv.2.data.length = 9 ∧ kv.2.data.drop 6 = "...".data) →
        String.mk (kv.2.data.take 6 ++ "...".data) ≠ kv.2) := by
  obtain ⟨hm, -, hl⟩ := apiKeyManagerInit_ok env parse m l h
  refine ⟨maskedSummary m.api_keys, ?_, ?_, ?_⟩
  · rw [hl, ← hm]
    exact List.mem_append_right _ (List.mem_singleton.mpr rfl)
  · intro kv hkv
    exact List.mem_map.mpr ⟨kv, hkv, rfl⟩
  · intro kv _ hne
    exact maskValue_ne kv.2 hne

/-- Witness for C2 (amended): at a concrete successful construction, the ten
character secret `"gr1secretX"` is never logged in full. -/
theorem c2_masked_success_log_witness :
    String.mk ("gr1secretX".data.take 6 ++ "...".data) ≠ "gr1secretX" := by
  have h := c2_masked_success_log
    [("GROQ_API_KEY", "gr1secretX"), ("GOOGLE_API_KEY", "go1"), ("OPENAI_API_KEY", "op1")]
    (fun _ => .err "u")
    ⟨[("GROQ_API_KEY", "gr1secretX"), ("GOOGLE_API_KEY", "go1"), ("OPENAI_API_KEY", "op1")]⟩
    [.infoLoadedIndividual "GROQ_API_KEY", .infoLoadedIndividual "GOOGLE_API_KEY",
     .infoLoadedIndividual "OPENAI_API_KEY",
     .infoApiKeysLoaded [("GROQ_API_KEY", "gr1sec..."), ("GOOGLE_API_KEY", "go1..."),
       ("OPENAI_API_KEY", "op1...")]]
    rfl
  obtain ⟨masked, -, -, hne⟩ := h
  exact hne ("GROQ_API_KEY", "gr1secretX") (by simp) (by decide)

/-- C4: if the `API_KEYS` blob parses to a JSON object holding a proper
subset of the three required key-names with non-empty values, and every
remaining required key-name is set as a non-empty individual environment
variable, construction succeeds and the resulting credential set is the
union of the two sources, the blob value winning for every key-name present
in both. -/
theorem c4_blob_union (env : Env) (parse : String → JsonParse) (blob : Dict)
    (raw : String)
    (hraw : dictGet env "API_KEYS" = some raw) (hne : raw.isEmpty = false)
    (hparse : parse raw = .obj blob)
    (hblob : ∀ kv ∈ blob, kv.1 ∈ REQUIRED_KEYS ∧ kv.2.isEmpty = false)
    (_hproper : ∃ k ∈ REQUIRED_KEYS, dictGet blob k = none)
    (hrest : ∀ k ∈ REQUIRED_KEYS, dictGet blob k = none →
      ∃ v, dictGet env k = some v ∧ v.isEmpty = false) :
    ∃ m l, apiKeyManagerInit env parse = (.ok m, l) ∧
      ∀ k ∈ REQUIRED_KEYS,
        dictGet m.api_keys k =
          match dictGet blob k with
          | some v => some v
          | none => dictGet env k := by
  have hinit : (initialDict env parse).1 = blob := by
    simp [initialDict, hraw, hne, hparse]
  have hget : ∀ k ∈ REQUIRED_KEYS,
      dictGet (resolvedKeys env parse).1 k =
        match dictGet blob k with
        | some v => some v
        | none => dictGet env k := by
    intro k hk
    rw [resolvedKeys_get env parse k hk, hinit]
    cases hb : dictGet blob k with
    | some v =>
        have hv := (hblob (k, v) (dictGet_mem blob k v hb)).2
        simp [hb, truthy, hv]
    | none =>
        obtain ⟨v, hv, hvne⟩ := hrest k hk hb
        simp [hb, truthy, hv, hvne]
  have htruthy : ∀ k ∈ REQUIRED_KEYS,
      truthy (dictGet (resolvedKeys env parse).1 k) = true := by
    intro k hk
    rw [hget k hk]
    cases hb : dictGet blob k with
    | some v =>
        have hv := (hblob (k, v) (dictGet_mem blob k v hb)).2
        simp [truthy, hv]
    | none =>
        obtain ⟨v, hv, hvne⟩ := hrest k hk hb
        simp [hv, truthy, hvne]
  have hmiss : missingKeys env parse = [] := by
    unfold missingKeys
    rw [List.filter_eq_nil_iff]
    intro k hk
    simp [htruthy k hk]
  refine ⟨⟨(resolvedKeys env parse).1⟩,
    (resolvedKeys env parse).2 ++
      [.infoApiKeysLoaded (maskedSummary (resolvedKeys env parse).1)], ?_, hget⟩
  simp only [apiKeyManagerInit, hmiss]
  rfl

/-- Witness for C4: the blob carries `GROQ_API_KEY`, the other two keys come
from individual environment variables. -/
theorem c4_blob_union_witness :
    ∃ m l,
      apiKeyManagerInit
        [("API_KEYS", "rawblob"), ("GOOGLE_API_KEY", "go4"), ("OPENAI_API_KEY", "op4")]
        (fun _ => .obj [("GROQ_API_KEY", "gq4")]) = (.ok m, l) ∧
      ∀ k ∈ REQUIRED_KEYS,
        dictGet m.api_keys k =
          match dictGet [("GROQ_API_KEY", "gq4")] k with
          | some v => some v
          | none =>
              dictGet [("API_KEYS", "rawblob"), ("GOOGLE_API_KEY", "go4"),
                ("OPENAI_API_KEY", "op4")] k :=
  c4_blob_union
    [("API_KEYS", "rawblob"), ("GOOGLE_API_KEY", "go4"), ("OPENAI_API_KEY", "op4")]
    (fun _ => .obj [("GROQ_API_KEY", "gq4")]) [("GROQ_API_KEY", "gq4")] "rawblob"
    rfl rfl rfl (by decide) (by decide) (by decide)

/-- C5: when `API_KEYS` is present but does not parse, or parses to
something other than a JSON object, construction does not fail at that
step: the blob is discarded as if absent, and construction succeeds
whenever all three required key-names are individually set to non-empty
environment variables, with the values taken from those variables. -/
theorem c5_malformed_blob_falls_through (env : Env) (parse : String → JsonParse)
    (raw : String)
    (hraw : dictGet env "API_KEYS" = some raw) (hne : raw.isEmpty = false)
    (hbad : parse raw = .nonObj ∨ ∃ msg, parse raw = .err msg)
    (hall : ∀ k ∈ REQUIRED_KEYS, ∃ v, dictGet env k = some v ∧ v.isEmpty = false) :
    (initialDict env parse).1 = [] ∧
    ∃ m l, apiKeyManagerInit env parse = (.ok m, l) ∧
      ∀ k ∈ REQUIRED_KEYS, dictGet m.api_keys k = dictGet env k := by
  have hinit : (initialDict env parse).1 = [] := by
    rcases hbad with hb | ⟨msg, hb⟩ <;> simp [initialDict, hraw, hne, hb]
  have hget : ∀ k ∈ REQUIRED_KEYS,
      dictGet (resolvedKeys env parse).1 k = dictGet env k := by
    intro k hk
    rw [resolvedKeys_get env parse k hk, hinit]
    obtain ⟨v, hv, hvne⟩ := hall k hk
    simp [dictGet, truthy, hv, hvne]
  have hmiss : missingKeys env parse = [] := by
    unfold missingKeys
    rw [List.filter_eq_nil_iff]
    intro k hk
    obtain ⟨v, hv, hvne⟩ := hall k hk
    simp [hget k hk, hv, truthy, hvne]
  refine ⟨hinit, ⟨(resolvedKeys env parse).1⟩,
    (resolvedKeys env parse).2 ++
      [.infoApiKeysLoaded (maskedSummary (resolvedKeys env parse).1)], ?_, hget⟩
  simp only [apiKeyManagerInit, hmiss]
  rfl

/-- Witness for C5 with a malformed blob and all three individual
variables set. -/
theorem c5_malformed_blob_falls_through_witness :
    (initialDict
      [("API_KEYS", "notjson"), ("GROQ_API_KEY", "gr5"), ("GOOGLE_API_KEY", "go5"),
       ("OPENAI_API_KEY", "op5")] (fun _ => .err "Expecting value")).1 = [] ∧
    ∃ m l,
      apiKeyManagerInit
        [("API_KEYS", "notjson"), ("GROQ_API_KEY", "gr5"), ("GOOGLE_API_KEY", "go5"),
         ("OPENAI_API_KEY", "op5")] (fun _ => .err "Expecting value") = (.ok m, l) ∧
      ∀ k ∈ REQUIRED_KEYS,
        dictGet m.api_keys k =
          dictGet [("API_KEYS", "notjson"), ("GROQ_API_KEY", "gr5"),
            ("GOOGLE_API_KEY", "go5"), ("OPENAI_API_KEY", "op5")] k :=
  c5_malformed_blob_falls_through
    [("API_KEYS", "notjson"), ("GROQ_API_KEY", "gr5"), ("GOOGLE_API_KEY", "go5"),
     ("OPENAI_API_KEY", "op5")]
    (fun _ => .err "Expecting value") "notjson" rfl rfl
    (Or.inr ⟨"Expecting value", rfl⟩) (by decide)

/-- C9: blob precedence is decided by truthiness, not presence.  If the
`API_KEYS` blob maps a required key-name to the empty string (a falsy
value), that entry does not take precedence: the same-named individual
environment variable, when set and non-empty, overwrites it in the resolved
credential set; and an individual variable set to the empty string is itself
treated as absent, so a required key that is falsy in the blob and empty in
the environment is counted missing. -/
theorem c9_truthiness_not_presence (env : Env) (parse : String → JsonParse)
    (blob : Dict) (raw : String)
    (hraw : dictGet env "API_KEYS" = some raw) (hne : raw.isEmpty = false)
    (hparse : parse raw = .obj blob) (k : String) (hk : k ∈ REQUIRED_KEYS) :
    (∀ v, dictGet blob k = some "" → dictGet env k = some v → v.isEmpty = false →
      dictGet (resolvedKeys env parse).1 k = some v) ∧
    ((dictGet blob k = none ∨ dictGet blob k = some "") → dictGet env k = some "" →
      k ∈ missingKeys env parse) := by
  have hinit : (initialDict env parse).1 = blob := by
    simp [initialDict, hraw, hne, hparse]
  have hemp : "".isEmpty = true := by decide
  constructor
  · intro v hb henv hvne
    rw [resolvedKeys_get env parse k hk, hinit]
    simp [hb, truthy, henv, hvne, hemp]
  · intro hb henv
    have hres : dictGet (resolvedKeys env parse).1 k = dictGet blob k := by
      rw [resolvedKeys_get env parse k hk, hinit]
      rcases hb with hb | hb <;> simp [hb, truthy, henv, hemp]
    unfold missingKeys
    rw [List.mem_filter]
    refine ⟨hk, ?_⟩
    rw [hres]
    rcases hb with hb | hb <;> simp [hb, truthy, hemp]

/-- Witness for C9: the blob holds an empty `GROQ_API_KEY` (overwritten by
the individual variable) and an empty `OPENAI_API_KEY` while the individual
`OPENAI_API_KEY` is set to the empty string (counted missing). -/
theorem c9_truthiness_not_presence_witness :
    dictGet (resolvedKeys
      [("API_KEYS", "raw9"), ("GROQ_API_KEY", "gr9"), ("OPENAI_API_KEY", "")]
      (fun _ => .obj [("GROQ_API_KEY", ""), ("OPENAI_API_KEY", "")])).1
      "GROQ_API_KEY" = some "gr9" ∧
    "OPENAI_API_KEY" ∈ missingKeys
      [("API_KEYS", "raw9"), ("GROQ_API_KEY", "gr9"), ("OPENAI_API_KEY", "")]
      (fun _ => .obj [("GROQ_API_KEY", ""), ("OPENAI_API_KEY", "")]) :=
  ⟨(c9_truthiness_not_presence
      [("API_KEYS", "raw9"), ("GROQ_API_KEY", "gr9"), ("OPENAI_API_KEY", "")]
      (fun _ => .obj [("GROQ_API_KEY", ""), ("OPENAI_API_KEY", "")])
      [("GROQ_API_KEY", ""), ("OPENAI_API_KEY", "")] "raw9" rfl rfl rfl
      "GROQ_API_KEY" (by decide)).1 "gr9" rfl rfl rfl,
   (c9_truthiness_not_presence
      [("API_KEYS", "raw9"), ("GROQ_API_KEY", "gr9"), ("OPENAI_API_KEY", "")]
      (fun _ => .obj [("GROQ_API_KEY", ""), ("OPENAI_API_KEY", "")])
      [("GROQ_API_KEY", ""), ("OPENAI_API_KEY", "")] "raw9" rfl rfl rfl
      "OPENAI_API_KEY" (by decide)).2 (Or.inr rfl) rfl⟩

/-- C10: key-names in the `API_KEYS` blob beyond the three required ones are
not filtered out: after successful construction they remain in the
credential set, their masked prefixes appear in the success log, and
`get(k)` returns their values when those are non-empty. -/
theorem c10_extra_keys_kept (env : Env) (parse : String → JsonParse)
    (blob : Dict) (raw : String) (k v : String)
    (hraw : dictGet env "API_KEYS" = some raw) (hne : raw.isEmpty = false)
    (hparse : parse raw = .obj blob)
    (hk : k ∉ REQUIRED_KEYS) (hv : dictGet blob k = some v)
    (m : ApiKeyManager) (l : List LogEvent)
    (hok : apiKeyManagerInit env parse = (.ok m, l)) :
    dictGet m.api_keys k = some v ∧
    (v.isEmpty = false → m.get k = .ok v) ∧
    ∃ masked, LogEvent.infoApiKeysLoaded masked ∈ l ∧
      (k, String.mk (v.data.take 6 ++ "...".data)) ∈ masked := by
  obtain ⟨hm, -, hl⟩ := apiKeyManagerInit_ok env parse m l hok
  have hinit : (initialDict env parse).1 = blob := by
    simp [initialDict, hraw, hne, hparse]
  have hget : dictGet m.api_keys k = some v := by
    rw [hm, resolvedKeys_get_not_required env parse k hk, hinit, hv]
  refine ⟨hget, ?_, ?_⟩
  · intro hvne
    simp [ApiKeyManager.get, hget, hvne]
  · refine ⟨maskedSummary m.api_keys, ?_, ?_⟩
    · rw [hl, ← hm]
      exact List.mem_append_right _ (List.mem_singleton.mpr rfl)
    · exact List.mem_map.mpr ⟨(k, v), dictGet_mem m.api_keys k v hget, rfl⟩

/-- Witness for C10 with the extra blob key `"EXTRA_KEY"`. -/
theorem c10_extra_keys_kept_witness :
    dictGet (ApiKeyManager.mk
      [("EXTRA_KEY", "extraval"), ("GROQ_API_KEY", "gr0"), ("GOOGLE_API_KEY", "go0"),
       ("OPENAI_API_KEY", "op0")]).api_keys "EXTRA_KEY" = some "extraval" ∧
    ((String.isEmpty "extraval") = false →
      (ApiKeyManager.mk
        [("EXTRA_KEY", "extraval"), ("GROQ_API_KEY", "gr0"), ("GOOGLE_API_KEY", "go0"),
         ("OPENAI_API_KEY", "op0")]).get "EXTRA_KEY" = .ok "extraval") ∧
    ∃ masked,
      LogEvent.infoApiKeysLoaded masked ∈
        [LogEvent.infoLoadedBlob, LogEvent.infoLoadedIndividual "GROQ_API_KEY",
         LogEvent.infoLoadedIndividual "GOOGLE_API_KEY",
         LogEvent.infoLoadedIndividual "OPENAI_API_KEY",
         LogEvent.infoApiKeysLoaded [("EXTRA_KEY", "extrav..."), ("GROQ_API_KEY", "gr0..."),
           ("GOOGLE_API_KEY", "go0..."), ("OPENAI_API_KEY", "op0...")]] ∧
      ("EXTRA_KEY", String.mk ("extraval".data.take 6 ++ "...".data)) ∈ masked :=
  c10_extra_keys_kept
    [("API_KEYS", "rawten"), ("GROQ_API_KEY", "gr0"), ("GOOGLE_API_KEY", "go0"),
     ("OPENAI_API_KEY", "op0")]
    (fun _ => .obj [("EXTRA_KEY", "extraval")])
    [("EXTRA_KEY", "extraval")] "rawten" "EXTRA_KEY" "extraval"
    rfl rfl rfl (by decide) rfl
    (ApiKeyManager.mk
      [("EXTRA_KEY", "extraval"), ("GROQ_API_KEY", "gr0"), ("GOOGLE_API_KEY", "go0"),
       ("OPENAI_API_KEY", "op0")])
    [LogEvent.infoLoadedBlob, LogEvent.infoLoadedIndividual "GROQ_API_KEY",
     LogEvent.infoLoadedIndividual "GOOGLE_API_KEY",
     LogEvent.infoLoadedIndividual "OPENAI_API_KEY",
     LogEvent.infoApiKeysLoaded [("EXTRA_KEY", "extrav..."), ("GROQ_API_KEY", "gr0..."),
       ("GOOGLE_API_KEY", "go0..."), ("OPENAI_API_KEY", "op0...")]]
    rfl

/-- C3: every exception raised during `load_embeddings` — from reading the
embedding-model name out of configuration, from resolving
`GOOGLE_API_KEY`, or from the embedding-client factory — is logged and then
re-raised as a wrapped `DocumentPortalException` retaining the original
exception as its cause; when no exception occurs, the operation returns the
client built from exactly the configured model name and the resolved
`GOOGLE_API_KEY`. -/
theorem c3_load_embeddings_wrapping (α : Type) (config : ConfigDict)
    (mgr : ApiKeyManager) (factory : ConfigVal → String → Except PyErr α) :
    (∀ e, embeddingModelName config = .error e →
      load_embeddings config mgr factory =
        (.error ⟨"Failed to load embedding model", some e⟩,
         [.errorLoadingEmbedding e])) ∧
    (∀ mname e, embeddingModelName config = .ok mname →
      mgr.get "GOOGLE_API_KEY" = .error e →
      load_embeddings config mgr factory =
        (.error ⟨"Failed to load embedding model", some e⟩,
         [.infoLoadingEmbedding mname, .errorLoadingEmbedding e])) ∧
    (∀ mname key e, embeddingModelName config = .ok mname →
      mgr.get "GOOGLE_API_KEY" = .ok key → factory mname key = .error e →
      load_embeddings config mgr factory =
        (.error ⟨"Failed to load embedding model", some e⟩,
         [.infoLoadingEmbedding mname, .errorLoadingEmbedding e])) ∧
    (∀ mname key c, embeddingModelName config = .ok mname →
      mgr.get "GOOGLE_API_KEY" = .ok key → factory mname key = .ok c →
      load_embeddings config mgr factory = (.ok c, [.infoLoadingEmbedding mname])) := by
  refine ⟨?_, ?_, ?_, ?_⟩
  · intro e h
    unfold load_embeddings
    rw [h]
  · intro mname e h1 h2
    unfold load_embeddings
    rw [h1]
    simp only [h2]
  · intro mname key e h1 h2 h3
    unfold load_embeddings
    rw [h1]
    simp only [h2, h3]
  · intro mname key c h1 h2 h3
    unfold load_embeddings
    rw [h1]
    simp only [h2, h3]

/-- Witness for C3: with a complete configuration and a succeeding factory,
`load_embeddings` returns exactly the factory result for the configured
model name and key. -/
theorem c3_load_embeddings_wrapping_witness :
    load_embeddings [("embedding_model", .d [("model_name", .s "models/embedding-001")])]
      (ApiKeyManager.mk [("GOOGLE_API_KEY", "go3")])
      (fun m k => .ok (m, k)) =
      (.ok (ConfigVal.s "models/embedding-001", "go3"),
       [.infoLoadingEmbedding (.s "models/embedding-001")]) :=
  (c3_load_embeddings_wrapping (ConfigVal × String)
    [("embedding_model", .d [("model_name", .s "models/embedding-001")])]
    (ApiKeyManager.mk [("GOOGLE_API_KEY", "go3")])
    (fun m k => .ok (m, k))).2.2.2
    (.s "models/embedding-001") "go3" (ConfigVal.s "models/embedding-001", "go3")
    rfl rfl rfl

/-- The configuration of the C6 scenario: an `llm.openai` entry with
provider tag `"openai"`, model name `"gpt-x"`, temperature `0.1`, and no
`max_output_tokens` entry. -/
def c6Config : ConfigDict :=
  [("llm", .d [("openai", .d [("provider", .s "openai"),
    ("model_name", .s "gpt-x"), ("temperature", .n 0.1)])])]

/-- C6: with `LLM_PROVIDER` unset and the C6 configuration, `load_llm`
takes the openai branch and invokes the OpenAI chat factory with model
`"gpt-x"`, the resolved `OPENAI_API_KEY`, temperature `0.1`, and the
default max-token budget `2048`. -/
theorem c6_openai_defaults (key : String) (hk : key.isEmpty = false) :
    load_llm c6Config [] (ApiKeyManager.mk [("OPENAI_API_KEY", key)]) =
      (.ok (.chatOpenAI (some (.s "gpt-x")) key (.n 0.1) (.n 2048)),
       [.infoLoadingLLM (some (.s "openai")) (some (.s "gpt-x"))]) := by
  unfold load_llm c6Config
  simp [topSubscript, dictGet, ApiKeyManager.get, isProviderTag, hk]

/-- Witness for C6 at the concrete key `"sk-test"`. -/
theorem c6_openai_defaults_witness :
    load_llm c6Config [] (ApiKeyManager.mk [("OPENAI_API_KEY", "sk-test")]) =
      (.ok (.chatOpenAI (some (.s "gpt-x")) "sk-test" (.n 0.1) (.n 2048)),
       [.infoLoadingLLM (some (.s "openai")) (some (.s "gpt-x"))]) :=
  c6_openai_defaults "sk-test" (by decide)

theorem ApiKeyManager.get_error (m : ApiKeyManager) (k : String) (e : PyErr)
    (h : m.get k = .error e) :
    e = .keyError ("API key for " ++ k ++ " is missing") := by
  unfold ApiKeyManager.get at h
  cases hv : dictGet m.api_keys k with
  | none => rw [hv] at h; simp at h; exact h.symm
  | some v =>
      rw [hv] at h
      by_cases hvempty : v.isEmpty
      · simp [hvempty] at h; exact h.symm
      · simp [hvempty] at h

/-- The two situations in which the claim says `load_llm` raises a
validation error: the requested provider key (the `LLM_PROVIDER` variable,
defaulting to `"openai"`) is absent from the configuration's `llm` block,
or the selected entry's provider tag is none of `"google"`, `"groq"`,
`"openai"`.  Absence from the block is Python membership: key lookup when
the block is a mapping, the substring test when the block is a string (a
string-valued block whose text does not contain the key also reaches the
provider-not-found `ValueError`), and undefined — `TypeError` before either
validation check — when the block is a number.  The tag check applies only
when the selected entry is a mapping; elsewhere Python raises
`AttributeError` at `.get` before reading any tag. -/
def specValidationSituation (config : ConfigDict) (provider_key : String) : Bool :=
  match dictGet config "llm" with
  | some (.d llm_block) =>
      match dictGet llm_block provider_key with
      | none => true
      | some (.d llm_config) =>
          !(isProviderTag (dictGet llm_config "provider") "google" ||
            isProviderTag (dictGet llm_config "provider") "groq" ||
            isProviderTag (dictGet llm_config "provider") "openai")
      | some _ => false
  | some (.s str) => !strContains str provider_key
  | _ => false

/-- C7: `load_llm` raises a validation error naming the offending value in
exactly two situations — the requested provider key absent from the
configuration's `llm` block under Python membership semantics (the error
names that provider key; for a string-valued block membership is the
substring test), and the selected entry's provider tag none of
`"google"`/`"groq"`/`"openai"` (the error names that tag); in all other
cases no validation error is raised. -/
theorem c7_validation_errors (config : ConfigDict) (env : Env) (mgr : ApiKeyManager) :
    ((∃ e, (load_llm config env mgr).1 = .error e ∧ e.isValueError = true) ↔
      specValidationSituation config ((dictGet env "LLM_PROVIDER").getD "openai") = true) ∧
    (∀ llm_block, dictGet config "llm" = some (.d llm_block) →
      dictGet llm_block ((dictGet env "LLM_PROVIDER").getD "openai") = none →
      (load_llm config env mgr).1 =
        .error (.valueErrorProviderNotFound
          ((dictGet env "LLM_PROVIDER").getD "openai"))) ∧
    (∀ llm_block llm_config, dictGet config "llm" = some (.d llm_block) →
      dictGet llm_block ((dictGet env "LLM_PROVIDER").getD "openai") =
        some (.d llm_config) →
      (isProviderTag (dictGet llm_config "provider") "google" ||
       isProviderTag (dictGet llm_config "provider") "groq" ||
       isProviderTag (dictGet llm_config "provider") "openai") = false →
      (load_llm config env mgr).1 =
        .error (.valueErrorUnsupportedProvider (dictGet llm_config "provider"))) ∧
    (∀ str, dictGet config "llm" = some (.s str) →
      strContains str ((dictGet env "LLM_PROVIDER").getD "openai") = false →
      (load_llm config env mgr).1 =
        .error (.valueErrorProviderNotFound
          ((dictGet env "LLM_PROVIDER").getD "openai"))) := by
  refine ⟨?_, ?_, ?_, ?_⟩
  · cases hllm : dictGet config "llm" with
    | none =>
        simp [load_llm, topSubscript, hllm, specValidationSituation, PyErr.isValueError]
    | some v =>
        cases v with
        | s str =>
            cases hsub : strContains str ((dictGet env "LLM_PROVIDER").getD "openai") with
            | true =>
                simp [load_llm, topSubscript, hllm, hsub, specValidationSituation,
                  PyErr.isValueError]
            | false =>
                simp [load_llm, topSubscript, hllm, hsub, specValidationSituation,
                  PyErr.isValueError]
        | n q =>
            simp [load_llm, topSubscript, hllm, specValidationSituation,
              PyErr.isValueError]
        | d llm_block =>
            cases hpk : dictGet llm_block ((dictGet env "LLM_PROVIDER").getD "openai") with
            | none =>
                simp [load_llm, topSubscript, hllm, hpk, specValidationSituation,
                  PyErr.isValueError]
            | some entry =>
                cases entry with
                | s str =>
                    simp [load_llm, topSubscript, hllm, hpk, specValidationSituation,
                      PyErr.isValueError]
                | n q =>
                    simp [load_llm, topSubscript, hllm, hpk, specValidationSituation,
                      PyErr.isValueError]
                | d llm_config =>
                    by_cases hg : isProviderTag (dictGet llm_config "provider") "google"
                    · cases hget : mgr.get "GOOGLE_API_KEY" with
                      | error e =>
                          have he := ApiKeyManager.get_error mgr _ e hget
                          subst he
                          simp [load_llm, topSubscript, hllm, hpk, hg, hget,
                            specValidationSituation, PyErr.isValueError]
                      | ok key =>
                          simp [load_llm, topSubscript, hllm, hpk, hg, hget,
                            specValidationSituation, PyErr.isValueError]
                    · by_cases hq : isProviderTag (dictGet llm_config "provider") "groq"
                      · cases hget : mgr.get "GROQ_API_KEY" with
                        | error e =>
                            have he := ApiKeyManager.get_error mgr _ e hget
                            subst he
                            simp [load_llm, topSubscript, hllm, hpk, hg, hq, hget,
                              specValidationSituation, PyErr.isValueError]
                        | ok key =>
                            simp [load_llm, topSubscript, hllm, hpk, hg, hq, hget,
                              specValidationSituation, PyErr.isValueError]
                      · by_cases ho : isProviderTag (dictGet llm_config "provider") "openai"
                        · cases hget : mgr.get "OPENAI_API_KEY" with
                          | error e =>
                              have he := ApiKeyManager.get_error mgr _ e hget
                              subst he
                              simp [load_llm, topSubscript, hllm, hpk, hg, hq, ho, hget,
                                specValidationSituation, PyErr.isValueError]
                          | ok key =>
                              simp [load_llm, topSubscript, hllm, hpk, hg, hq, ho, hget,
                                specValidationSituation, PyErr.isValueError]
                        · simp [load_llm, topSubscript, hllm, hpk, hg, hq, ho,
                            specValidationSituation, PyErr.isValueError]
  · intro llm_block h1 h2
    simp [load_llm, topSubscript, h1, h2]
  · intro llm_block llm_config h1 h2 h3
    rw [Bool.or_eq_false_iff] at h3
    obtain ⟨h3a, hoa⟩ := h3
    rw [Bool.or_eq_false_iff] at h3a
    obtain ⟨hga, hgq⟩ := h3a
    simp [load_llm, topSubscript, h1, h2, hga, hgq, hoa]
  · intro str h1 h2
    simp [load_llm, topSubscript, h1, h2]

/-- Witness for C7: with `LLM_PROVIDER="mistral"` absent from the
configuration's `llm` block, `load_llm` fails with the validation error
naming `"mistral"`. -/
theorem c7_validation_errors_witness :
    (load_llm
      [("llm", ConfigVal.d [("openai", ConfigVal.d [("provider", ConfigVal.s "openai")])])]
      [("LLM_PROVIDER", "mistral")] (ApiKeyManager.mk [])).1 =
      .error (.valueErrorProviderNotFound "mistral") :=
  (c7_validation_errors
    [("llm", ConfigVal.d [("openai", ConfigVal.d [("provider", ConfigVal.s "openai")])])]
    [("LLM_PROVIDER", "mistral")] (ApiKeyManager.mk [])).2.1
    [("openai", ConfigVal.d [("provider", ConfigVal.s "openai")])] rfl rfl
